import Mathlib

/-!
# Verification of the TilliT extraction pipeline (`src/Extract.py`)

A shallow embedding of the `TilliT` class of `Extract.py`, which reconciles
production-scheduling data from a scheduling/planning service and an
order-execution service into two flat views (a BOM setup table and an
order-fulfillment table).

Modelling conventions:
* pandas dataframes are lists of records (one structure per frame schema);
* object-dtype cells that may hold a string, a number or a missing value
  (`NaN`/`None`) are modelled by `TilliT.PVal`;
* numeric cells that may be `NaN` are modelled by `Option ℚ`;
* HTTP responses are explicit values; raised exceptions are `Except.error`;
* `sort_values` is modelled by `List.insertionSort` over an explicit
  lexicographic comparator in which a missing key sorts last, matching
  pandas' ascending sort with `NaN` placed last.
-/

namespace TilliT

/-- A pandas object-dtype cell: a string, a number, or a missing value
(`np.nan` / `None`, which pandas treats alike). -/
inductive PVal where
  | str (s : String)
  | num (q : ℚ)
  | na
  deriving DecidableEq

/-! ## Lexicographic comparators

pandas `sort_values(by=[...])` sorts ascending by a tuple of string keys with
missing keys last.  We compare strings by their (unicode code point) character
lists, which is the comparison pandas performs on python strings.  The
comparators are written over `List Nat` so that every comparison reduces in
the kernel. -/

/-- Code-point list of a string, the sort key of one string cell. -/
def strKey (s : String) : List Nat := s.data.map (fun c => c.toNat)

/-- Lexicographic comparison of code-point lists (python string `<`). -/
def natListCmp : List Nat → List Nat → Ordering
  | [], [] => .eq
  | [], _ :: _ => .lt
  | _ :: _, [] => .gt
  | a :: as, b :: bs =>
    if a < b then .lt else if b < a then .gt else natListCmp as bs

/-- Comparison of one nullable key column: a missing key (`NaN`) sorts last,
as pandas' default `na_position='last'`. -/
def optKeyCmp : Option (List Nat) → Option (List Nat) → Ordering
  | none, none => .eq
  | none, some _ => .gt
  | some _, none => .lt
  | some a, some b => natListCmp a b

/-- Lexicographic comparison of a tuple of nullable keys (the `by=[...]`
list of a multi-key `sort_values`). -/
def keyCmp : List (Option (List Nat)) → List (Option (List Nat)) → Ordering
  | [], [] => .eq
  | [], _ :: _ => .lt
  | _ :: _, [] => .gt
  | a :: as, b :: bs =>
    match optKeyCmp a b with
    | .lt => .lt
    | .gt => .gt
    | .eq => keyCmp as bs

/-- `a` sorts no later than `b` under the lexicographic key comparison. -/
def keyLe (a b : List (Option (List Nat))) : Prop := keyCmp a b ≠ .gt

instance : DecidableRel keyLe := fun _ _ => instDecidableNot

/-! ## EntityNormalizer

The `extract` / `extract_fields` helpers are called throughout `Extract.py`
but are defined elsewhere in the repository, outside `src/`.  They are
modelled here from the spec (§4.3). -/

/-- Modelled from the spec: `extractField(obj, fieldName)` (the repository's
`extract` helper, not under `src/`) returns the named field of a present
(non-null) object, else a null/empty marker; it never raises.  In the shallow
embedding the field name is a projection function. -/
def extract {α β : Type} (obj : Option α) (field : α → β) : Option β :=
  obj.map field

/-- Modelled from the spec: `extractFields(list, fieldNames)` (the
repository's `extract_fields` helper, not under `src/`) maps a nullable list
of nested objects to a same-order list keeping only the named fields
(a projection per object); returns `[]` on null or empty input. -/
def extract_fields {α β : Type} (objs : Option (List α)) (proj : α → β) : List β :=
  match objs with
  | none => []
  | some l => l.map proj

/-! ## The priority dictionary (`_scheduler_priority_map`, lines 13–17) -/

/-- `_scheduler_priority_map = {1: 'High', 2: 'Medium', 3: 'Low'}`. -/
def scheduler_priority_map : List (Int × String) :=
  [(1, "High"), (2, "Medium"), (3, "Low")]

/-- `self._scheduler_priority_map.get(x, '')` (line 292): dictionary lookup
with default `''`. -/
def priorityLabel (x : Int) : String :=
  (scheduler_priority_map.lookup x).getD ""

/-! ## ExecutionClient: `_do_get_completed_orders` (lines 355–378) -/

/-- The slice offsets `range(0, len(orderNumbers), 80)` of the batch
comprehension on line 367; `range(0, n, 80)` has `⌈n/80⌉` elements. -/
def batchStarts (n : Nat) : List Nat := (List.range ((n + 79) / 80)).map (· * 80)

/-- The batches `[orderNumbers[i:i + 80] for i in range(0, len(orderNumbers), 80)]`
(line 367). -/
def orderBatches (orderNumbers : List String) : List (List String) :=
  (batchStarts orderNumbers.length).map (fun i => (orderNumbers.drop i).take 80)

/-- First-occurrence deduplication with an accumulator of already-seen
elements: the behaviour of `pandas.Series.unique()`, and the model of
`list(set(...))` (whose iteration order CPython does not specify). -/
def uniqueAux {α : Type} [DecidableEq α] : List α → List α → List α
  | [], _ => []
  | x :: xs, seen => if x ∈ seen then uniqueAux xs seen else x :: uniqueAux xs (x :: seen)

/-- Deduplication keeping first occurrences. -/
def uniqueFirst {α : Type} [DecidableEq α] (l : List α) : List α := uniqueAux l []

/-- `_do_get_completed_orders(orderNumbers)`: one filtered REST GET per batch;
a response's `orderNumber` column is appended (deduplicated by `.unique()`)
when present — an empty response dataframe has no columns and contributes
nothing — and the accumulated list is returned as `list(set(orders))`.
`resp` maps each requested batch to the `orderNumber` column of the
corresponding response. -/
def do_get_completed_orders (resp : List String → List String)
    (orderNumbers : List String) : List String :=
  uniqueFirst ((orderBatches orderNumbers).foldl
    (fun orders batch =>
      let col := resp batch
      if col = [] then orders else orders ++ uniqueFirst col) [])

/-- Number of REST requests `_do_get_completed_orders` issues: one
`fetch_DO` call per batch of the loop on lines 368–371. -/
def do_get_completed_requestCount (orderNumbers : List String) : Nat :=
  (orderBatches orderNumbers).length

/-! ## HTTP transport -/

/-- An HTTP response, already decoded to a body of type `β`. -/
structure HttpResp (β : Type) where
  status : Nat
  body : β

/-- `requests`' `Response.raise_for_status()`: raises `HTTPError` exactly
for the 4xx/5xx status codes. -/
def raise_for_status {β : Type} (r : HttpResp β) : Except Nat (HttpResp β) :=
  if 400 ≤ r.status ∧ r.status < 600 then .error r.status else .ok r

/-- `fetch_scheduler_graphql` (lines 72–76): POST the payload to the graph
endpoint, `raise_for_status()`, and return the decoded JSON body unmodified. -/
def fetch_scheduler_graphql {β : Type} (r : HttpResp β) : Except Nat β :=
  (raise_for_status r).map (fun resp => resp.body)

/-! ## Scenario resolution and construction (`__init__`, `_set_data_template`) -/

/-- The nested `dataTemplate { id }` object of a scenario. -/
structure DataTemplateRef where
  id : Int
  deriving DecidableEq

/-- One element of the `scenarios` graph-query result: `{ id dataTemplate { id } }`. -/
structure ScenarioObj where
  id : Int
  dataTemplate : DataTemplateRef
  deriving DecidableEq

/-- The decoded body of the scenarios query: `data.scenarios` is a list of
scenarios or `null`. -/
structure ScenariosBody where
  scenarios : Option (List ScenarioObj)

/-- `_set_data_template` (lines 50–70), as the pair
`(scheduler_data_id, scheduler_scenario_id)` it stores.  An HTTP failure
propagates; `data["data"]["scenarios"][0]` raises `TypeError` on a `null`
list and `IndexError` on an empty one; otherwise both ids are read off the
first scenario.  (The decoded response is a non-empty dict, so the
`if data else 0` guards on lines 67–68 always take the scenario values.) -/
def set_data_template (resp : HttpResp ScenariosBody) : Except String (Int × Int) :=
  match fetch_scheduler_graphql resp with
  | .error s => .error ("HTTPError " ++ toString s)
  | .ok body =>
    match body.scenarios with
    | none => .error "TypeError: null scenarios"
    | some [] => .error "IndexError: list index out of range"
    | some (sc :: _) => .ok (sc.dataTemplate.id, sc.id)

/-- The state of a successfully constructed `TilliT` object. -/
structure TState where
  site : String
  tenant : String
  baseURL : String
  baseURLScheduler : String
  authHeader : String
  scheduler_data_id : Int
  scheduler_scenario_id : Int

/-- `__init__` (lines 21–48): build the base URLs and headers, run
`_set_data_template`, then check the two stored ids; unless both are
strictly positive, raise
`Exception("Failed to get Scheduler Data Template Id or Scenario Id")`.
Only on success is the scheduler base URL extended with
`/{site}/{scheduler_data_id}` and the object returned. -/
def tillitInit (resp : HttpResp ScenariosBody) (site tenant authBase64 : String)
    (isStage : Bool) : Except String TState :=
  let baseURL :=
    "https://" ++ tenant ++ ".tillit" ++ (if isStage then "-stage" else "") ++ ".cloud/au/api"
  let baseURLScheduler := baseURL ++ "/scheduler"
  match set_data_template resp with
  | .error e => .error e
  | .ok (d, s) =>
    if 0 < d ∧ 0 < s then
      .ok { site := site
            tenant := tenant
            baseURL := baseURL
            baseURLScheduler := baseURLScheduler ++ "/" ++ site ++ "/" ++ toString d
            authHeader := "Basic " ++ authBase64
            scheduler_data_id := d
            scheduler_scenario_id := s }
    else .error "Failed to get Scheduler Data Template Id or Scenario Id"

/-! ## Stage A: `_scheduler_get_planned_order` (lines 247–308) -/

/-- The nested `status { status alias code }` object of an order (the
`alias` field is named `statusAlias` here; only `status` is ever read). -/
structure OrderStatusObj where
  status : String
  statusAlias : String
  code : String
  deriving DecidableEq

/-- One element of the raw `orderItems` list of the orders query. -/
structure RawOrderItem where
  id : Int
  invalid : Bool
  invalidReason : Option String
  allocated : Bool
  quantity : ℚ
  quantityUnitOfMeasure : String
  operationsDefinitionClass : String
  deriving DecidableEq

/-- One element of the raw `orderProperties` list. -/
structure RawOrderProp where
  externalId : String
  value : String
  deriving DecidableEq

/-- One row of the `getOrdersForScenario` graph-query result. -/
structure RawOrder where
  id : Int
  externalId : String
  earliestStartDate : Option String
  dueDate : Option String
  priority : Int
  notes : Option String
  status : Option OrderStatusObj
  orderItems : Option (List RawOrderItem)
  orderProperties : Option (List RawOrderProp)
  deriving DecidableEq

/-- The order-item projection kept by line 285. -/
structure ItemProj where
  id : Int
  quantity : ℚ
  quantityUnitOfMeasure : String
  operationsDefinitionClass : String
  deriving DecidableEq

/-- The order-property projection kept by line 291. -/
structure PropProj where
  externalId : String
  value : String
  deriving DecidableEq

def itemProj (it : RawOrderItem) : ItemProj :=
  { id := it.id
    quantity := it.quantity
    quantityUnitOfMeasure := it.quantityUnitOfMeasure
    operationsDefinitionClass := it.operationsDefinitionClass }

def propProj (p : RawOrderProp) : PropProj :=
  { externalId := p.externalId, value := p.value }

/-- `s.split(' - ')[0]` (line 290): the prefix of the character list before
the first occurrence of the `" - "` delimiter, or the whole list when the
delimiter is absent. -/
def splitHeadAux : List Char → List Char
  | [] => []
  | ' ' :: '-' :: ' ' :: _ => []
  | c :: rest => c :: splitHeadAux rest

/-- The product code derived from `operationsDefinitionClass` (line 290). -/
def productCodeOf (s : String) : String := String.mk (splitHeadAux s.data)

/-- One row of the dataframe `_scheduler_get_planned_order` returns, fields
in the `selected_columns` order of line 298 after the
`externalId → orderNumber` rename of line 307.  Line 287 casts
`orderItemsId` with `astype(np.int64)`, which raises on a null value; the
embedding keeps the null, under which the later equi-join can never match. -/
structure PlannedRow where
  id : Int
  orderNumber : String
  earliestStartDate : Option String
  dueDate : Option String
  notes : Option String
  status : Option String
  orderItems : List ItemProj
  orderProperties : Option (List PropProj)
  priority : String
  orderItemsId : Option Int
  orderedQuantity : Option ℚ
  orderUOM : Option String
  ProductCode : Option String
  deriving DecidableEq

/-- Lines 284–297: the per-row processing of one raw order.  The
`orderProperties` cell becomes `None` unless `pd.notna(x).any()`, i.e.
unless the raw list is present and non-empty. -/
def plannedRowOf (o : RawOrder) : PlannedRow :=
  let items := extract_fields o.orderItems itemProj
  { id := o.id
    orderNumber := o.externalId
    earliestStartDate := o.earliestStartDate
    dueDate := o.dueDate
    notes := o.notes
    status := extract o.status (fun st => st.status)
    orderItems := items
    orderProperties :=
      match o.orderProperties with
      | some (p :: ps) => some ((p :: ps).map propProj)
      | _ => none
    priority := priorityLabel o.priority
    orderItemsId := items.head?.map (fun it => it.id)
    orderedQuantity := items.head?.map (fun it => it.quantity)
    orderUOM := items.head?.map (fun it => it.quantityUnitOfMeasure)
    ProductCode := items.head?.map (fun it => productCodeOf it.operationsDefinitionClass) }

/-- The planning-status exclusion set of line 301 (the case-inconsistent
`'Complete'` literal is kept exactly as in the source). -/
def excludedStatuses : List String :=
  ["COMPLETED", "SUSPENDED", "CANCELLED", "READY", "Complete"]

/-- `data["status"].isin([...])` for one row (line 301): a null status
belongs to no set. -/
def statusExcluded (st : Option String) : Bool :=
  match st with
  | some s => excludedStatuses.contains s
  | none => false

/-- `data["ProductCode"].isin(excludeItems)` for one row (line 304). -/
def productExcluded (excludeItems : List String) (pc : Option String) : Bool :=
  match pc with
  | some code => excludeItems.contains code
  | none => false

/-- `_scheduler_get_planned_order(excludeCompleted, excludeItems)` applied
to the decoded order list (lines 282–308): per-row processing, optional
status filter (line 300–301), optional product filter (lines 303–304,
skipped for an empty `excludeItems`), then selection and rename. -/
def plannedOrders (orders : List RawOrder) (excludeCompleted : Bool)
    (excludeItems : List String) : List PlannedRow :=
  let rows := orders.map plannedRowOf
  let rows := if excludeCompleted then rows.filter (fun r => !(statusExcluded r.status)) else rows
  if excludeItems = [] then rows
  else rows.filter (fun r => !(productExcluded excludeItems r.ProductCode))

/-! ## Stage B: `_scheduler_get_equipment` (lines 142–175) and
`_scheduler_get_scheduled_order` (lines 310–353) -/

/-- One row of the equipments graph-query result. -/
structure EquipmentRow where
  id : Int
  externalId : String
  description : String
  deriving DecidableEq

/-- The ordering relation of `sort_values(by="externalId")` (line 175). -/
def eqptLe (a b : EquipmentRow) : Prop :=
  natListCmp (strKey a.externalId) (strKey b.externalId) ≠ .gt

instance : DecidableRel eqptLe := fun _ _ => instDecidableNot

/-- `_scheduler_get_equipment` applied to a decoded (non-null) equipments
list: the rows sorted ascending by `externalId`. -/
def equipmentSorted (equipments : List EquipmentRow) : List EquipmentRow :=
  List.insertionSort eqptLe equipments

/-- One element of an allocation's `assignments` list. -/
structure RawAssignment where
  id : Int
  resourceId : Int
  resourceType : String
  requirementId : Option Int
  deriving DecidableEq

/-- The nested `changeover` allocation; only its `duration` field is ever
read (line 342). -/
structure RawChangeover where
  duration : ℚ
  deriving DecidableEq

/-- One allocation of the `getAllocations` query result (the fields the
pipeline consumes; `start`/`end` are epoch milliseconds). -/
structure RawAllocation where
  id : Int
  start : Int
  «end» : Int
  segmentId : Int
  orderItemId : Int
  quantity : ℚ
  duration : ℚ
  expectedDuration : ℚ
  durationLocked : Bool
  assignments : List RawAssignment
  changeover : Option RawChangeover
  deriving DecidableEq

/-- One row of the dataframe `_scheduler_get_scheduled_order` returns,
fields in the `selected_columns` order of line 349 after the
`quantity → ScheduledQuantity` rename of line 352.  Timestamps are seconds
since `_schedulerStartDateEpoch` (1970-01-01T00:00:00Z), i.e.
`int(ms)/1000` (lines 339–340). -/
structure ScheduledRow where
  orderItemId : Int
  StartDateTime : ℚ
  EndDateTime : ℚ
  ScheduledQuantity : ℚ
  duration : ℚ
  expectedDuration : ℚ
  durationLocked : Bool
  Changeover_duration : Option ℚ
  Equipment : Option String
  deriving DecidableEq

/-- Lines 339–347: the per-allocation processing, given the sorted
equipment lookup.  `Equipment` keeps the `externalId`s of the equipment
rows whose `id` is among the assignment `resourceId`s, in lookup-frame
order, comma-joined; an empty list becomes `None` (line 346). -/
def scheduledRowOf (equipment : List EquipmentRow) (a : RawAllocation) : ScheduledRow :=
  let resourceIds := a.assignments.map (fun asg => asg.resourceId)
  let codes := (equipment.filter (fun e => resourceIds.contains e.id)).map
    (fun e => e.externalId)
  { orderItemId := a.orderItemId
    StartDateTime := (a.start : ℚ) / 1000
    EndDateTime := (a.«end» : ℚ) / 1000
    ScheduledQuantity := a.quantity
    duration := a.duration
    expectedDuration := a.expectedDuration
    durationLocked := a.durationLocked
    Changeover_duration := extract a.changeover (fun c => c.duration)
    Equipment := if codes = [] then none else some (String.intercalate "," codes) }

/-- `_scheduler_get_scheduled_order` applied to a decoded (non-null)
allocations list. -/
def scheduledOrders (allocations : List RawAllocation)
    (equipments : List EquipmentRow) : List ScheduledRow :=
  allocations.map (scheduledRowOf (equipmentSorted equipments))

/-! ## Stage C: `scheduler_get_orders` (lines 481–511) -/

/-- The inner merge of lines 498–499: planned rows (left) to scheduled rows
(right) on `orderItemsId = orderItemId`; each left row pairs with every
matching right row, in left-then-right order; left rows without a match
produce nothing. -/
def ordersMerged (ps : List PlannedRow) (ss : List ScheduledRow) :
    List (PlannedRow × ScheduledRow) :=
  ps.flatMap (fun p =>
    (ss.filter (fun s => decide (p.orderItemsId = some s.orderItemId))).map (fun s => (p, s)))

/-- Line 501: the distinct surviving order numbers, in first-occurrence
order (`merged_df["orderNumber"].unique().tolist()`). -/
def mergedOrderNumbers (merged : List (PlannedRow × ScheduledRow)) : List String :=
  uniqueFirst (merged.map (fun r => r.1.orderNumber))

/-- Line 504,
`merged_df.loc[merged_df["orderNumber"].isin(doOrders), "status"] = "COMPLETED"`,
applied to one row: sets the status cell of a row whose order number is in
`doOrders`, touches nothing else. -/
def overlayRow (doOrders : List String) (r : PlannedRow × ScheduledRow) :
    PlannedRow × ScheduledRow :=
  if doOrders.contains r.1.orderNumber then
    ({ r.1 with status := some "COMPLETED" }, r.2)
  else r

/-- One row of the final order-fulfillment view, with the 20 public column
names assigned positionally on lines 507–510. -/
structure FinalRow where
  Id : Int
  OrderNumber : String
  EarliestStartDate : Option String
  DueDate : Option String
  Notes : Option String
  Status : Option String
  OrderItems : List ItemProj
  OrderProperties : Option (List PropProj)
  Priority : String
  OrderedQuantity : Option ℚ
  OrderUOM : Option String
  ProductCode : Option String
  StartDateTime : ℚ
  EndDateTime : ℚ
  ScheduledQuantity : ℚ
  Duration_Minutes : ℚ
  ExpectedDuration_Minutes : ℚ
  DurationLocked : Bool
  ChangeoverDuration : Option ℚ
  Equipment : Option String
  deriving DecidableEq

/-- Lines 506–510: drop the two join-key columns `orderItemId` and
`orderItemsId`, then assign the 20 public names to the remaining columns by
position; cell values are untouched. -/
def finalizeRow (r : PlannedRow × ScheduledRow) : FinalRow :=
  { Id := r.1.id
    OrderNumber := r.1.orderNumber
    EarliestStartDate := r.1.earliestStartDate
    DueDate := r.1.dueDate
    Notes := r.1.notes
    Status := r.1.status
    OrderItems := r.1.orderItems
    OrderProperties := r.1.orderProperties
    Priority := r.1.priority
    OrderedQuantity := r.1.orderedQuantity
    OrderUOM := r.1.orderUOM
    ProductCode := r.1.ProductCode
    StartDateTime := r.2.StartDateTime
    EndDateTime := r.2.EndDateTime
    ScheduledQuantity := r.2.ScheduledQuantity
    Duration_Minutes := r.2.duration
    ExpectedDuration_Minutes := r.2.expectedDuration
    DurationLocked := r.2.durationLocked
    ChangeoverDuration := r.2.Changeover_duration
    Equipment := r.2.Equipment }

/-- The 22 column names of the merged frame of line 498, in pandas order
(the 13 left-frame columns, then the 9 right-frame columns). -/
def mergedColumns : List String :=
  ["id", "orderNumber", "earliestStartDate", "dueDate", "notes", "status",
   "orderItems", "orderProperties", "priority", "orderItemsId",
   "orderedQuantity", "orderUOM", "ProductCode",
   "orderItemId", "StartDateTime", "EndDateTime", "ScheduledQuantity",
   "duration", "expectedDuration", "durationLocked", "Changeover_duration",
   "Equipment"]

/-- The two columns dropped on line 506. -/
def droppedColumns : List String := ["orderItemId", "orderItemsId"]

/-- The 20 public column names assigned positionally on lines 507–510. -/
def finalColumns : List String :=
  ["Id", "OrderNumber", "EarliestStartDate", "DueDate", "Notes", "Status",
   "OrderItems", "OrderProperties", "Priority", "OrderedQuantity",
   "OrderUOM", "ProductCode", "StartDateTime", "EndDateTime",
   "ScheduledQuantity", "Duration_Minutes", "ExpectedDuration_Minutes",
   "DurationLocked", "ChangeoverDuration", "Equipment"]

/-- The data `scheduler_get_orders` queries: the decoded
`getOrdersForScenario` and `getAllocations` results, the equipments lookup,
and the execution system's per-batch completed-orders responses. -/
structure OrdersEnv where
  orders : List RawOrder
  allocations : List RawAllocation
  equipments : List EquipmentRow
  completedResp : List String → List String

/-- The completed-orders set Stage C queries (lines 501–502). -/
def ordersCompletedSet (env : OrdersEnv) (excludeCompleted : Bool)
    (excludeItems : List String) : List String :=
  do_get_completed_orders env.completedResp
    (mergedOrderNumbers (ordersMerged (plannedOrders env.orders excludeCompleted excludeItems)
      (scheduledOrders env.allocations env.equipments)))

/-- `scheduler_get_orders` (lines 481–511) on pre-fetched data: Stage A,
Stage B, inner merge, completed-orders overlay, drop and positional rename. -/
def scheduler_get_orders (env : OrdersEnv) (excludeCompleted : Bool)
    (excludeItems : List String) : List FinalRow :=
  let ps := plannedOrders env.orders excludeCompleted excludeItems
  let ss := scheduledOrders env.allocations env.equipments
  let merged := ordersMerged ps ss
  let doOrders := do_get_completed_orders env.completedResp (mergedOrderNumbers merged)
  (merged.map (overlayRow doOrders)).map finalizeRow

/-- `scheduler_get_orders()` with its default arguments
`excludeCompleted=True, excludeItems=[]` (line 481). -/
def scheduler_get_orders_default (env : OrdersEnv) : List FinalRow :=
  scheduler_get_orders env true []

/-! ## Transport-level wrappers (for the error-handling claims) -/

/-- The decoded body of the orders graph query (line 278):
`data.getOrdersForScenario` is a list or `null`. -/
structure OrdersBody where
  getOrdersForScenario : Option (List RawOrder)

/-- The inner object of the allocations query (line 330):
`data.getAllocations.allocations` is a list or `null`. -/
structure AllocationsInner where
  allocations : Option (List RawAllocation)

/-- The decoded body of the allocations graph query. -/
structure AllocationsBody where
  getAllocations : AllocationsInner

/-- The decoded body of the equipments graph query (line 170). -/
structure EquipmentsBody where
  equipments : Option (List EquipmentRow)

/-- `_scheduler_get_planned_order` at the transport level: an HTTP error
from `fetch_scheduler_graphql` propagates uncaught; a successful response
whose `getOrdersForScenario` field is `null` returns `None` to the caller
(lines 278–281) rather than raising. -/
def scheduler_get_planned_order_http (r : HttpResp OrdersBody)
    (excludeCompleted : Bool) (excludeItems : List String) :
    Except Nat (Option (List PlannedRow)) := do
  let body ← fetch_scheduler_graphql r
  match body.getOrdersForScenario with
  | none => return none
  | some orders => return some (plannedOrders orders excludeCompleted excludeItems)

/-- The transport environment of one `scheduler_get_orders` call. -/
structure OrdersHttpEnv where
  ordersResp : HttpResp OrdersBody
  allocationsResp : HttpResp AllocationsBody
  equipmentsResp : HttpResp EquipmentsBody
  completedResp : List String → List String

/-- `scheduler_get_orders` at the transport level, issuing the graph
fetches in source order (orders, then allocations, then equipments).  An
uncaught HTTP error on any fetch aborts the whole view build.  A `None`
planned or scheduled frame makes the merge on line 498 raise, and a `None`
equipment lookup makes line 345 raise; both are modelled as errors. -/
def scheduler_get_orders_http (env : OrdersHttpEnv) (excludeCompleted : Bool)
    (excludeItems : List String) : Except String (List FinalRow) := do
  let pbody ← (fetch_scheduler_graphql env.ordersResp).mapError
    (fun s => "HTTPError " ++ toString s)
  let abody ← (fetch_scheduler_graphql env.allocationsResp).mapError
    (fun s => "HTTPError " ++ toString s)
  let ebody ← (fetch_scheduler_graphql env.equipmentsResp).mapError
    (fun s => "HTTPError " ++ toString s)
  match pbody.getOrdersForScenario, abody.getAllocations.allocations, ebody.equipments with
  | none, _, _ => .error "AttributeError: NoneType object has no attribute merge"
  | _, none, _ => .error "TypeError: cannot merge None"
  | _, _, none => .error "TypeError: None equipment lookup"
  | some orders, some allocations, some equipments =>
    .ok (scheduler_get_orders
      { orders := orders
        allocations := allocations
        equipments := equipments
        completedResp := env.completedResp } excludeCompleted excludeItems)

/-! ## BomJoiner: `scheduler_get_bom_setup` (lines 382–467)

The six entity frames come from paginated REST endpoints whose JSON schemas
live in the scheduling service, outside this repository; each structure
below carries the columns the pipeline reads, with the nested references
(`route`, `equipmentClass`, `materialDefinition`) and the key columns placed
as described by the spec's data model (§3, §4.4). -/

/-- One row of the operations frame. -/
structure OperationRow where
  operationCode : String
  externalId : String
  description : String
  quantity : PVal
  deriving DecidableEq

/-- One row of the routes frame. -/
structure RouteRow where
  operationCode : String
  routeCode : String
  deriving DecidableEq

/-- One row of the materials view built by `_scheduler_get_materials`
(lines 177–201, `includeProperties=False`): projected to
`externalId`, `description`, `materialGroup` and `fillna('')`-cleaned. -/
structure MaterialRow where
  externalId : String
  description : String
  materialGroup : String
  deriving DecidableEq

/-- The nested route reference carried by a segment row. -/
structure RouteRef where
  routeCode : String
  deriving DecidableEq

/-- One row of the segments frame. -/
structure SegmentRow where
  operationCode : String
  routeCode : String
  segmentCode : String
  route : Option RouteRef
  fixedDuration : PVal
  rate : PVal
  deriving DecidableEq

/-- The nested equipment-class reference of a segment-equipment row. -/
structure EquipClassRef where
  externalId : String
  description : String
  deriving DecidableEq

/-- One row of the segment-equipments frame. -/
structure SegEquipRow where
  operationCode : String
  routeCode : String
  segmentCode : String
  equipmentClass : Option EquipClassRef
  deriving DecidableEq

/-- The nested material-definition reference of a segment-material row. -/
structure MatDefRef where
  externalId : String
  description : String
  deriving DecidableEq

/-- One row of the segment-materials frame. -/
structure SegMaterialRow where
  operationCode : String
  routeCode : String
  segmentCode : String
  materialDefinition : Option MatDefRef
  quantity : PVal
  quantityUnitOfMeasure : Option String
  materialUse : Option String
  deriving DecidableEq

/-- A pandas `merge(how="left")`: every left row appears once per matching
right row, or once with a null right side when nothing matches, in
left-then-right order. -/
def leftJoin {α β : Type} (ls : List α) (rs : List β) (keyEq : α → β → Bool) :
    List (α × Option β) :=
  ls.flatMap (fun l =>
    let ms := rs.filter (keyEq l)
    if ms.isEmpty then [(l, none)] else ms.map (fun r => (l, some r)))

/-- A row after step 1 of the chain (line 406). -/
abbrev BomStep1Row := OperationRow × Option RouteRow

/-- A row after step 2 (line 407). -/
abbrev BomStep2Row := BomStep1Row × Option MaterialRow

/-- A row after step 3 (line 408). -/
abbrev BomStep3Row := BomStep2Row × Option SegmentRow

/-- A row after step 4 (line 409). -/
abbrev BomStep4Row := BomStep3Row × Option SegEquipRow

/-- A row after step 5 (line 410). -/
abbrev BomStep5Row := BomStep4Row × Option SegMaterialRow

/-- Step 1 key: `operationCode` on both sides (line 406). -/
def routeMatch (l : OperationRow) (r : RouteRow) : Bool :=
  l.operationCode == r.operationCode

/-- Step 2 key: left `operationCode` against right `externalId` (line 407). -/
def materialMatch (l : BomStep1Row) (m : MaterialRow) : Bool :=
  l.1.operationCode == m.externalId

/-- Step 3 key: `(operationCode, routeCode)` (line 408); the left
`routeCode` column originated in the routes frame, and a null key (an
operation without a matching route) matches nothing, as in pandas. -/
def segmentMatch (l : BomStep2Row) (s : SegmentRow) : Bool :=
  l.1.1.operationCode == s.operationCode &&
    (l.1.2.map (fun r => r.routeCode)) == some s.routeCode

/-- Step 4 key: `(operationCode, routeCode, segmentCode)` (line 409); the
left `segmentCode` column originated in the segments frame. -/
def segEquipMatch (l : BomStep3Row) (e : SegEquipRow) : Bool :=
  l.1.1.1.operationCode == e.operationCode &&
    (l.1.1.2.map (fun r => r.routeCode)) == some e.routeCode &&
    (l.2.map (fun s => s.segmentCode)) == some e.segmentCode

/-- Step 5 key: `(operationCode, routeCode, segmentCode)` (line 410). -/
def segMaterialMatch (l : BomStep4Row) (m : SegMaterialRow) : Bool :=
  l.1.1.1.1.operationCode == m.operationCode &&
    (l.1.1.1.2.map (fun r => r.routeCode)) == some m.routeCode &&
    (l.1.2.map (fun s => s.segmentCode)) == some m.segmentCode

/-- The six pre-fetched scheduler frames `scheduler_get_bom_setup` merges
(lines 398–403). -/
structure BomEnv where
  operations : List OperationRow
  routes : List RouteRow
  materials : List MaterialRow
  segments : List SegmentRow
  segmentEquipments : List SegEquipRow
  segmentMaterials : List SegMaterialRow

def bomStep1 (env : BomEnv) : List BomStep1Row :=
  leftJoin env.operations env.routes routeMatch

def bomStep2 (env : BomEnv) : List BomStep2Row :=
  leftJoin (bomStep1 env) env.materials materialMatch

def bomStep3 (env : BomEnv) : List BomStep3Row :=
  leftJoin (bomStep2 env) env.segments segmentMatch

def bomStep4 (env : BomEnv) : List BomStep4Row :=
  leftJoin (bomStep3 env) env.segmentEquipments segEquipMatch

def bomStep5 (env : BomEnv) : List BomStep5Row :=
  leftJoin (bomStep4 env) env.segmentMaterials segMaterialMatch

/-! ### Numeric coercion (lines 422–424) -/

/-- Accumulate a run of decimal digits. -/
def parseDigitsAux : List Char → Nat → Option Nat
  | [], acc => some acc
  | c :: cs, acc =>
    if c.isDigit then parseDigitsAux cs (acc * 10 + (c.toNat - 48)) else none

/-- Parse a non-empty run of decimal digits. -/
def parseDigits : List Char → Option Nat
  | [] => none
  | c :: cs => if c.isDigit then parseDigitsAux cs (c.toNat - 48) else none

/-- Split a character list at the first `'.'`. -/
def splitDotAux : List Char → List Char × Option (List Char)
  | [] => ([], none)
  | '.' :: rest => ([], some rest)
  | c :: rest =>
    let tail := splitDotAux rest
    (c :: tail.1, tail.2)

/-- `pd.to_numeric(·, errors='coerce')` on a string cell, modelled for plain
decimal numerals: optional sign, an integer part, and an optional fractional
part; any other string coerces to `NaN` (`none`).  (pandas additionally
accepts exponents and bare-dot forms such as `"1."`; the claims exercise
only plain numerals and non-numeric strings.) -/
def parseNumeric (s : String) : Option ℚ :=
  let signed : List Char × Bool :=
    match s.data with
    | '-' :: rest => (rest, true)
    | '+' :: rest => (rest, false)
    | cs => (cs, false)
  let parts := splitDotAux signed.1
  let mag : Option ℚ :=
    match parts.2 with
    | none => (parseDigits parts.1).map (fun n => (n : ℚ))
    | some frac =>
      match parseDigits parts.1, parseDigits frac with
      | some ip, some fp => some ((ip : ℚ) + (fp : ℚ) / ((10 : ℚ) ^ frac.length))
      | _, _ => none
  mag.map (fun q => if signed.2 then -q else q)

/-- `.replace(["NaN", "null", "", np.nan], 0)` (lines 422–423) on one cell:
a cell equal to one of the listed values becomes 0; pandas treats a `None`
cell like `np.nan` here. -/
def replaceMissingZero (v : PVal) : PVal :=
  match v with
  | .str s => if s = "NaN" ∨ s = "null" ∨ s = "" then .num 0 else .str s
  | .num q => .num q
  | .na => .num 0

/-- `pd.to_numeric(·, errors='coerce')` on one cell: numbers pass through,
missing stays missing, strings are parsed or coerced to `NaN`. -/
def toNumeric (v : PVal) : Option ℚ :=
  match v with
  | .num q => some q
  | .na => none
  | .str s => parseNumeric s

/-- The full numeric coercion the pipeline applies to the `fixedDuration`
and `rate` columns (lines 422–423):
`pd.to_numeric(col.replace(["NaN", "null", "", np.nan], 0), errors='coerce')`. -/
def coerceNumericZero (v : PVal) : Option ℚ := toNumeric (replaceMissingZero v)

/-! ### Derived columns, projection, rename and sort (lines 412–465) -/

/-- `merged_df['equipmentClass'].apply(extract 'description')` followed by
`.replace(["NaN", "null", "", np.nan, None], '')` (line 419). -/
def equipClassClean (v : Option String) : String :=
  match v with
  | none => ""
  | some "NaN" => ""
  | some "null" => ""
  | some s => s

/-- One row of the final BOM setup view: the 17 `selected_columns` of lines
412–415 in order, under the renamed labels of lines 447–464.  `astype`
(lines 427–445) fixes the numeric columns as floats and the rest as
(nullable) strings. -/
structure BomFinalRow where
  Quantity : Option ℚ
  OperationCode : String
  OperationExternalID : String
  OperationDescription : String
  OperationMaterialGroup : Option String
  Segment : Option String
  Route : Option String
  EquipmentClassID : Option String
  EquipmentClass : String
  MaterialCode : Option String
  MaterialDescription : Option String
  MaterialQuantity : Option ℚ
  MaterialUnitOfMeasure : Option String
  MaterialUse : Option String
  FixedDuration : Option ℚ
  Rate : Option ℚ
  RatePerHour : Option ℚ
  deriving DecidableEq

/-- The `fixedDuration` cell of one merged row: from the segment side,
`NaN` when the segment join is unmatched. -/
def bomFixedDurationCell (m : BomStep5Row) : PVal :=
  match m.1.1.2 with
  | some s => s.fixedDuration
  | none => .na

/-- The `rate` cell of one merged row: from the segment side, `NaN` when
the segment join is unmatched. -/
def bomRateCell (m : BomStep5Row) : PVal :=
  match m.1.1.2 with
  | some s => s.rate
  | none => .na

/-- Lines 417–424 and 447–464 applied to one merged row: derive the nested
columns through `extract` (null-safe), coerce `fixedDuration`/`rate`, set
`rateHour = rate * 60 * 60`, select and rename.  `equipmentClassId` (line
418) reads the nested reference before line 419 overwrites
`equipmentClass`. -/
def bomFinalize (m : BomStep5Row) : BomFinalRow :=
  let op := m.1.1.1.1.1
  let mat? := m.1.1.1.2
  let seg? := m.1.1.2
  let eq? := m.1.2
  let sm? := m.2
  let rate := coerceNumericZero (bomRateCell m)
  { Quantity := toNumeric op.quantity
    OperationCode := op.operationCode
    OperationExternalID := op.externalId
    OperationDescription := op.description
    OperationMaterialGroup := mat?.map (fun mt => mt.materialGroup)
    Segment := seg?.map (fun s => s.segmentCode)
    Route := extract (seg?.bind (fun s => s.route)) (fun r => r.routeCode)
    EquipmentClassID := extract (eq?.bind (fun e => e.equipmentClass)) (fun c => c.externalId)
    EquipmentClass :=
      equipClassClean (extract (eq?.bind (fun e => e.equipmentClass)) (fun c => c.description))
    MaterialCode := extract (sm?.bind (fun sm => sm.materialDefinition)) (fun d => d.externalId)
    MaterialDescription :=
      extract (sm?.bind (fun sm => sm.materialDefinition)) (fun d => d.description)
    MaterialQuantity :=
      toNumeric (match sm? with | some sm => sm.quantity | none => .na)
    MaterialUnitOfMeasure := sm?.bind (fun sm => sm.quantityUnitOfMeasure)
    MaterialUse := sm?.bind (fun sm => sm.materialUse)
    FixedDuration := coerceNumericZero (bomFixedDurationCell m)
    Rate := rate
    RatePerHour := rate.map (fun q => q * 60 * 60) }

/-- `selected_columns` of lines 412–415. -/
def bomSelectedColumns : List String :=
  ["quantity", "operationCode", "externalId", "description", "materialGroup",
   "segmentCode", "route", "equipmentClassId", "equipmentClass", "materialId",
   "material", "quantity_segmentMaterial", "quantityUnitOfMeasure",
   "materialUse", "fixedDuration", "rate", "rateHour"]

/-- The rename mapping of lines 447–464. -/
def bomRenameMap : List (String × String) :=
  [("operationCode", "Operation Code"),
   ("externalId", "Operation External ID"),
   ("description", "Operation Description"),
   ("materialGroup", "Operation Material Group"),
   ("segmentCode", "Segment"),
   ("route", "Route"),
   ("quantity", "Quantity"),
   ("quantity_segmentMaterial", "Material Quantity"),
   ("quantityUnitOfMeasure", "Material Unit of Measure"),
   ("materialUse", "Material Use"),
   ("equipmentClass", "Equipment Class"),
   ("equipmentClassId", "Equipment Class ID"),
   ("materialId", "Material Code"),
   ("material", "Material Description"),
   ("fixedDuration", "Fixed Duration"),
   ("rate", "Rate"),
   ("rateHour", "Rate per Hour")]

/-- The sort key of line 465, in its exact order. -/
def bomSortKeys : List String :=
  ["Operation Code", "Segment", "Route", "Material Code"]

/-- The sort key of one final row: (Operation Code, Segment, Route,
Material Code), with missing keys sorting last. -/
def bomKey (r : BomFinalRow) : List (Option (List Nat)) :=
  [some (strKey r.OperationCode), r.Segment.map strKey, r.Route.map strKey,
   r.MaterialCode.map strKey]

/-- The `sort_values(by=["Operation Code", "Segment", "Route",
"Material Code"])` ordering on final rows. -/
def bomRowLe (a b : BomFinalRow) : Prop := keyLe (bomKey a) (bomKey b)

instance : DecidableRel bomRowLe :=
  fun a b => inferInstanceAs (Decidable (keyLe (bomKey a) (bomKey b)))

/-- `scheduler_get_bom_setup` (lines 382–467) on pre-fetched data: the
five-step left-join chain, the derived columns, the projection/rename, and
the ascending multi-key sort. -/
def scheduler_get_bom_setup (env : BomEnv) : List BomFinalRow :=
  List.insertionSort bomRowLe ((bomStep5 env).map bomFinalize)

/-! ## Concrete sample data

Small concrete frames used to evaluate the pipeline at explicit inputs. -/

/-- A sample operation row. -/
def sampleOp : OperationRow :=
  { operationCode := "OP1", externalId := "OPX", description := "Op one", quantity := .num 1 }

/-- A BOM environment with one operation and empty right-hand frames. -/
def sampleBomEnvBare : BomEnv :=
  { operations := [sampleOp], routes := [], materials := [], segments := []
    segmentEquipments := [], segmentMaterials := [] }

/-- A BOM environment whose single segment carries the non-numeric string
`"x"` in both `fixedDuration` and `rate`. -/
def sampleBomEnvRateX : BomEnv :=
  { operations := [sampleOp]
    routes := [{ operationCode := "OP1", routeCode := "R1" }]
    materials := []
    segments := [{ operationCode := "OP1", routeCode := "R1", segmentCode := "S1",
                   route := some { routeCode := "R1" },
                   fixedDuration := .str "x", rate := .str "x" }]
    segmentEquipments := []
    segmentMaterials := [] }

/-- A sample planned-order row whose (single) order-item id is 10. -/
def samplePlanned : PlannedRow :=
  { id := 1, orderNumber := "A1", earliestStartDate := none, dueDate := none
    notes := none, status := some "NEW", orderItems := [], orderProperties := none
    priority := "High", orderItemsId := some 10, orderedQuantity := some 5
    orderUOM := some "EA", ProductCode := some "P1" }

/-- A sample scheduled row on order-item 10. -/
def sampleSched1 : ScheduledRow :=
  { orderItemId := 10, StartDateTime := 0, EndDateTime := 1, ScheduledQuantity := 5
    duration := 30, expectedDuration := 30, durationLocked := false
    Changeover_duration := none, Equipment := none }

/-- A second sample scheduled row on order-item 10. -/
def sampleSched2 : ScheduledRow :=
  { orderItemId := 10, StartDateTime := 2, EndDateTime := 3, ScheduledQuantity := 5
    duration := 40, expectedDuration := 40, durationLocked := true
    Changeover_duration := none, Equipment := none }

/-- A sample raw order `"A1"` in scheduling status `IN_PROGRESS`, with one
order item (id 10). -/
def sampleRawOrder : RawOrder :=
  { id := 1, externalId := "A1", earliestStartDate := none, dueDate := none
    priority := 1, notes := none
    status := some { status := "IN_PROGRESS", statusAlias := "", code := "" }
    orderItems := some [{ id := 10, invalid := false, invalidReason := none
                          allocated := true, quantity := 5
                          quantityUnitOfMeasure := "EA"
                          operationsDefinitionClass := "P1 - x" }]
    orderProperties := none }

/-- A sample allocation of order-item 10. -/
def sampleAlloc : RawAllocation :=
  { id := 100, start := 0, «end» := 0, segmentId := 7, orderItemId := 10
    quantity := 5, duration := 30, expectedDuration := 30, durationLocked := false
    assignments := [], changeover := none }

/-- An orders environment in which order `"A1"` is `IN_PROGRESS` on the
scheduling side and the execution system reports it COMPLETED. -/
def sampleOrdersEnv : OrdersEnv :=
  { orders := [sampleRawOrder], allocations := [sampleAlloc], equipments := []
    completedResp := fun _ => ["A1"] }

/-- A scenarios response whose first live scenario has a non-positive
scenario id (0) and data-template id 5. -/
def sampleScenariosRespBad : HttpResp ScenariosBody :=
  { status := 200, body := { scenarios := some [{ id := 0, dataTemplate := { id := 5 } }] } }

/-- An orders graph response with HTTP status 500. -/
def sampleOrdersRespErr : HttpResp OrdersBody :=
  { status := 500, body := { getOrdersForScenario := none } }

/-- A successful orders graph response whose data field is null. -/
def sampleOrdersRespNull : HttpResp OrdersBody :=
  { status := 200, body := { getOrdersForScenario := none } }

/-- A transport environment whose orders fetch fails with HTTP 500. -/
def sampleOrdersHttpEnv : OrdersHttpEnv :=
  { ordersResp := sampleOrdersRespErr
    allocationsResp := { status := 200, body := { getAllocations := { allocations := some [] } } }
    equipmentsResp := { status := 200, body := { equipments := some [] } }
    completedResp := fun _ => [] }

/-! ## Supporting lemmas -/
theorem natListCmp_eq : ∀ {a b : List Nat}, natListCmp a b = .eq → a = b
  | [], [], _ => rfl
  | [], _ :: _, h => by simp [natListCmp] at h
  | _ :: _, [], h => by simp [natListCmp] at h
  | a :: as, b :: bs, h => by
    unfold natListCmp at h
    split_ifs at h with h1 h2
    have hab : a = b := by omega
    have := natListCmp_eq h
    simp [hab, this]

theorem natListCmp_swap : ∀ (a b : List Nat), natListCmp b a = (natListCmp a b).swap
  | [], [] => rfl
  | [], _ :: _ => rfl
  | _ :: _, [] => rfl
  | a :: as, b :: bs => by
    unfold natListCmp
    rcases Nat.lt_trichotomy a b with h | h | h
    · simp [h, Nat.not_lt.mpr (Nat.le_of_lt h), Ordering.swap]
    · simp [h, Nat.lt_irrefl, natListCmp_swap as bs]
    · simp [h, Nat.not_lt.mpr (Nat.le_of_lt h), Ordering.swap]

theorem natListCmp_lt_trans :
    ∀ {a b c : List Nat}, natListCmp a b = .lt → natListCmp b c = .lt → natListCmp a c = .lt
  | [], [], _, h1, _ => by simp [natListCmp] at h1
  | [], _ :: _, [], _, h2 => by simp [natListCmp] at h2
  | [], _ :: _, _ :: _, _, _ => rfl
  | _ :: _, [], _, h1, _ => by simp [natListCmp] at h1
  | _ :: _, _ :: _, [], _, h2 => by simp [natListCmp] at h2
  | a :: as, b :: bs, c :: cs, h1, h2 => by
    unfold natListCmp at h1 h2 ⊢
    rcases Nat.lt_trichotomy a b with hab | hab | hab
    · rcases Nat.lt_trichotomy b c with hbc | hbc | hbc
      · simp [show a < c by omega]
      · subst hbc
        simp [hab]
      · rw [if_neg (by omega), if_pos hbc] at h2
        exact absurd h2 (by decide)
    · subst hab
      rcases Nat.lt_trichotomy a c with hac | hac | hac
      · simp [hac]
      · subst hac
        rw [if_neg (by omega), if_neg (by omega)] at h1 h2 ⊢
        exact natListCmp_lt_trans h1 h2
      · rw [if_neg (by omega), if_pos hac] at h2
        exact absurd h2 (by decide)
    · rw [if_neg (by omega), if_pos hab] at h1
      exact absurd h1 (by decide)

theorem optKeyCmp_eq : ∀ {a b : Option (List Nat)}, optKeyCmp a b = .eq → a = b
  | none, none, _ => rfl
  | none, some _, h => by simp [optKeyCmp] at h
  | some _, none, h => by simp [optKeyCmp] at h
  | some _, some _, h => by simp [optKeyCmp] at h ⊢; exact natListCmp_eq h

theorem optKeyCmp_swap : ∀ (a b : Option (List Nat)), optKeyCmp b a = (optKeyCmp a b).swap
  | none, none => rfl
  | none, some _ => rfl
  | some _, none => rfl
  | some a, some b => natListCmp_swap a b

theorem optKeyCmp_lt_trans : ∀ {a b c : Option (List Nat)},
    optKeyCmp a b = .lt → optKeyCmp b c = .lt → optKeyCmp a c = .lt
  | none, none, _, h1, _ => by simp [optKeyCmp] at h1
  | none, some _, _, h1, _ => by simp [optKeyCmp] at h1
  | some _, none, none, _, h2 => by simp [optKeyCmp] at h2
  | some _, none, some _, _, h2 => by simp [optKeyCmp] at h2
  | some _, some _, none, _, _ => rfl
  | some _, some _, some _, h1, h2 => natListCmp_lt_trans h1 h2

theorem keyCmp_eq : ∀ {a b : List (Option (List Nat))}, keyCmp a b = .eq → a = b
  | [], [], _ => rfl
  | [], _ :: _, h => by simp [keyCmp] at h
  | _ :: _, [], h => by simp [keyCmp] at h
  | a :: as, b :: bs, h => by
    unfold keyCmp at h
    rcases hab : optKeyCmp a b with _ | _ | _ <;> rw [hab] at h
    · exact absurd h (by simp)
    · have := optKeyCmp_eq hab
      have := keyCmp_eq h
      simp_all
    · exact absurd h (by simp)

theorem keyCmp_swap : ∀ (a b : List (Option (List Nat))), keyCmp b a = (keyCmp a b).swap
  | [], [] => rfl
  | [], _ :: _ => rfl
  | _ :: _, [] => rfl
  | a :: as, b :: bs => by
    unfold keyCmp
    rw [optKeyCmp_swap a b]
    rcases optKeyCmp a b with _ | _ | _ <;> simp [Ordering.swap, keyCmp_swap as bs]

theorem natListCmp_refl : ∀ (a : List Nat), natListCmp a a = .eq
  | [] => rfl
  | a :: as => by
    unfold natListCmp
    rw [if_neg (Nat.lt_irrefl a), if_neg (Nat.lt_irrefl a), natListCmp_refl as]

theorem optKeyCmp_refl : ∀ (a : Option (List Nat)), optKeyCmp a a = .eq
  | none => rfl
  | some a => natListCmp_refl a

theorem keyCmp_cons_lt {a b : Option (List Nat)} {as bs : List (Option (List Nat))}
    (h : optKeyCmp a b = .lt) : keyCmp (a :: as) (b :: bs) = .lt := by
  unfold keyCmp
  rw [h]

theorem keyCmp_cons_gt {a b : Option (List Nat)} {as bs : List (Option (List Nat))}
    (h : optKeyCmp a b = .gt) : keyCmp (a :: as) (b :: bs) = .gt := by
  unfold keyCmp
  rw [h]

theorem keyCmp_cons_eq {a b : Option (List Nat)} {as bs : List (Option (List Nat))}
    (h : optKeyCmp a b = .eq) : keyCmp (a :: as) (b :: bs) = keyCmp as bs := by
  have hstep : keyCmp (a :: as) (b :: bs) =
      match optKeyCmp a b with
      | .lt => .lt
      | .gt => .gt
      | .eq => keyCmp as bs := rfl
  rw [hstep, h]

theorem keyCmp_lt_trans : ∀ {a b c : List (Option (List Nat))},
    keyCmp a b = .lt → keyCmp b c = .lt → keyCmp a c = .lt
  | [], [], _, h1, _ => by simp [keyCmp] at h1
  | [], _ :: _, [], _, h2 => by simp [keyCmp] at h2
  | [], _ :: _, _ :: _, _, _ => rfl
  | _ :: _, [], _, h1, _ => by simp [keyCmp] at h1
  | _ :: _, _ :: _, [], _, h2 => by simp [keyCmp] at h2
  | a :: as, b :: bs, c :: cs, h1, h2 => by
    rcases hab : optKeyCmp a b with _ | _ | _
    · rcases hbc : optKeyCmp b c with _ | _ | _
      · exact keyCmp_cons_lt (optKeyCmp_lt_trans hab hbc)
      · have hbc' : b = c := optKeyCmp_eq hbc
        subst hbc'
        exact keyCmp_cons_lt hab
      · rw [keyCmp_cons_gt hbc] at h2
        exact nomatch h2
    · have hab' : a = b := optKeyCmp_eq hab
      subst hab'
      rw [keyCmp_cons_eq (optKeyCmp_refl a)] at h1
      rcases hac : optKeyCmp a c with _ | _ | _
      · exact keyCmp_cons_lt hac
      · have hac' : a = c := optKeyCmp_eq hac
        subst hac'
        rw [keyCmp_cons_eq (optKeyCmp_refl a)] at h2 ⊢
        exact keyCmp_lt_trans h1 h2
      · rw [keyCmp_cons_gt hac] at h2
        exact nomatch h2
    · rw [keyCmp_cons_gt hab] at h1
      exact nomatch h1

theorem keyLe_total (a b : List (Option (List Nat))) : keyLe a b ∨ keyLe b a := by
  unfold keyLe
  rcases h : keyCmp a b with _ | _ | _
  · exact Or.inl (by simp [h])
  · exact Or.inl (by simp [h])
  · refine Or.inr ?_
    rw [keyCmp_swap, h]
    simp [Ordering.swap]

theorem keyLe_trans {a b c : List (Option (List Nat))} :
    keyLe a b → keyLe b c → keyLe a c := by
  unfold keyLe
  intro h1 h2
  rcases hab : keyCmp a b with _ | _ | _
  · rcases hbc : keyCmp b c with _ | _ | _
    · rw [keyCmp_lt_trans hab hbc]; simp
    · rw [keyCmp_eq hbc] at hab; rw [hab]; simp
    · exact absurd hbc h2
  · rw [keyCmp_eq hab]; exact h2
  · exact absurd hab h1

theorem mem_uniqueAux {α : Type} [DecidableEq α] :
    ∀ {l seen : List α} {x : α}, x ∈ uniqueAux l seen → x ∈ l ∧ x ∉ seen
  | [], _, _, h => by simp [uniqueAux] at h
  | y :: ys, seen, x, h => by
    unfold uniqueAux at h
    by_cases hy : y ∈ seen
    · rw [if_pos hy] at h
      have := mem_uniqueAux h
      exact ⟨List.mem_cons_of_mem _ this.1, this.2⟩
    · rw [if_neg hy] at h
      rcases List.mem_cons.mp h with rfl | h'
      · exact ⟨List.mem_cons_self _ _, hy⟩
      · have := mem_uniqueAux h'
        refine ⟨List.mem_cons_of_mem _ this.1, fun hx => this.2 (List.mem_cons_of_mem _ hx)⟩

theorem nodup_uniqueAux {α : Type} [DecidableEq α] :
    ∀ (l seen : List α), (uniqueAux l seen).Nodup
  | [], _ => List.nodup_nil
  | y :: ys, seen => by
    unfold uniqueAux
    by_cases hy : y ∈ seen
    · rw [if_pos hy]
      exact nodup_uniqueAux ys seen
    · rw [if_neg hy]
      refine List.Nodup.cons ?_ (nodup_uniqueAux ys (y :: seen))
      intro hmem
      exact (mem_uniqueAux hmem).2 (List.mem_cons_self _ _)

theorem nodup_uniqueFirst {α : Type} [DecidableEq α] (l : List α) :
    (uniqueFirst l).Nodup :=
  nodup_uniqueAux l []

theorem orderBatches_length (l : List String) :
    (orderBatches l).length = (l.length + 79) / 80 := by
  simp [orderBatches, batchStarts]

theorem orderBatches_size_le (l : List String) :
    ∀ b ∈ orderBatches l, b.length ≤ 80 := by
  intro b hb
  simp only [orderBatches, batchStarts, List.map_map, List.mem_map] at hb
  obtain ⟨i, _, rfl⟩ := hb
  simp only [Function.comp_apply, List.length_take]
  exact le_trans (Nat.min_le_left _ _) (le_refl 80)

theorem slices_join : ∀ (k : Nat) (l : List String), l.length ≤ 80 * k →
    ((List.range k).map (fun i => (l.drop (i * 80)).take 80)).flatten = l := by
  intro k
  induction k with
  | zero =>
    intro l h
    simp only [Nat.mul_zero, Nat.le_zero] at h
    simp [List.eq_nil_of_length_eq_zero h]
  | succ k ih =>
    intro l h
    rw [List.range_succ_eq_map, List.map_cons, List.map_map]
    have hcomp : ∀ i : Nat,
        ((fun i => (l.drop (i * 80)).take 80) ∘ Nat.succ) i =
          (fun i => ((l.drop 80).drop (i * 80)).take 80) i := by
      intro i
      simp only [Function.comp_apply]
      rw [List.drop_drop]
      congr 2
      omega
    rw [List.map_congr_left (fun i _ => hcomp i)]
    rw [List.flatten_cons]
    rw [ih (l.drop 80) (by simp [List.length_drop]; omega)]
    simp [List.take_append_drop]

theorem orderBatches_flatten (l : List String) : (orderBatches l).flatten = l := by
  have hb : orderBatches l =
      (List.range ((l.length + 79) / 80)).map (fun i => (l.drop (i * 80)).take 80) := by
    simp only [orderBatches, batchStarts, List.map_map]
    rfl
  rw [hb]
  exact slices_join _ l (by omega)

instance : IsTotal BomFinalRow bomRowLe :=
  ⟨fun a b => keyLe_total (bomKey a) (bomKey b)⟩

instance : IsTrans BomFinalRow bomRowLe :=
  ⟨fun _ _ _ => keyLe_trans⟩

theorem leftJoin_cons {α β : Type} (l : α) (ls : List α) (rs : List β)
    (keyEq : α → β → Bool) :
    leftJoin (l :: ls) rs keyEq =
      (if (rs.filter (keyEq l)).isEmpty then [(l, none)]
       else (rs.filter (keyEq l)).map (fun r => (l, some r))) ++ leftJoin ls rs keyEq := by
  simp only [leftJoin, List.flatMap_cons]

theorem leftJoin_length_ge {α β : Type} :
    ∀ (ls : List α) (rs : List β) (keyEq : α → β → Bool),
      ls.length ≤ (leftJoin ls rs keyEq).length
  | [], _, _ => by simp [leftJoin]
  | l :: ls, rs, keyEq => by
    rw [leftJoin_cons, List.length_append, List.length_cons]
    have h2 := leftJoin_length_ge ls rs keyEq
    by_cases he : (rs.filter (keyEq l)).isEmpty
    · rw [if_pos he]
      simp only [List.length_singleton]
      omega
    · rw [if_neg he, List.length_map]
      have hne : rs.filter (keyEq l) ≠ [] := by
        intro hnil
        rw [hnil] at he
        exact he rfl
      have h1 := List.length_pos.mpr hne
      omega

theorem leftJoin_mem_left {α β : Type} :
    ∀ {ls : List α} (rs : List β) (keyEq : α → β → Bool) {l : α}, l ∈ ls →
      ∃ p ∈ leftJoin ls rs keyEq, p.1 = l
  | [], _, _, _, h => absurd h (List.not_mem_nil _)
  | x :: ls, rs, keyEq, l, h => by
    rw [leftJoin_cons]
    rcases List.mem_cons.mp h with rfl | h'
    · by_cases he : (rs.filter (keyEq l)).isEmpty
      · refine ⟨(l, none), List.mem_append_left _ ?_, rfl⟩
        rw [if_pos he]
        exact List.mem_singleton_self _
      · have hne : rs.filter (keyEq l) ≠ [] := by
          intro hnil
          rw [hnil] at he
          exact he rfl
        obtain ⟨r, hr⟩ := List.exists_mem_of_ne_nil _ hne
        refine ⟨(l, some r), List.mem_append_left _ ?_, rfl⟩
        rw [if_neg he]
        exact List.mem_map_of_mem _ hr
    · obtain ⟨p, hp, hfst⟩ := leftJoin_mem_left rs keyEq h'
      exact ⟨p, List.mem_append_right _ hp, hfst⟩

theorem leftJoin_unmatched_null {α β : Type} {ls : List α} {rs : List β}
    {keyEq : α → β → Bool} {p : α × Option β} (hp : p ∈ leftJoin ls rs keyEq)
    (h : ∀ r ∈ rs, keyEq p.1 r = false) : p.2 = none := by
  unfold leftJoin at hp
  rw [List.mem_flatMap] at hp
  obtain ⟨l, hl, hmem⟩ := hp
  by_cases he : (rs.filter (keyEq l)).isEmpty
  · rw [if_pos he] at hmem
    rw [List.mem_singleton] at hmem
    rw [hmem]
  · rw [if_neg he] at hmem
    rw [List.mem_map] at hmem
    obtain ⟨r, hr, hpr⟩ := hmem
    rw [List.mem_filter] at hr
    subst hpr
    exact absurd hr.2 (by simp [h r hr.1])

theorem ordersMerged_mem {ps : List PlannedRow} {ss : List ScheduledRow}
    {r : PlannedRow × ScheduledRow} :
    r ∈ ordersMerged ps ss ↔
      r.1 ∈ ps ∧ r.2 ∈ ss ∧ r.1.orderItemsId = some r.2.orderItemId := by
  unfold ordersMerged
  rw [List.mem_flatMap]
  constructor
  · rintro ⟨p, hp, hmem⟩
    rw [List.mem_map] at hmem
    obtain ⟨s, hs, hps⟩ := hmem
    rw [List.mem_filter] at hs
    subst hps
    exact ⟨hp, hs.1, of_decide_eq_true hs.2⟩
  · rintro ⟨h1, h2, h3⟩
    exact ⟨r.1, h1, List.mem_map.mpr ⟨r.2, List.mem_filter.mpr ⟨h2, decide_eq_true h3⟩, rfl⟩⟩

theorem ordersMerged_countP (ps : List PlannedRow) (ss : List ScheduledRow)
    (p : PlannedRow) :
    (ordersMerged ps ss).countP (fun r => decide (r.1 = p)) =
      ps.countP (fun q => decide (q = p)) *
        ss.countP (fun s => decide (p.orderItemsId = some s.orderItemId)) := by
  induction ps with
  | nil => simp [ordersMerged]
  | cons q qs ih =>
    have hcons : ordersMerged (q :: qs) ss =
        ((ss.filter (fun s => decide (q.orderItemsId = some s.orderItemId))).map
          (fun s => (q, s))) ++ ordersMerged qs ss := by
      simp only [ordersMerged, List.flatMap_cons]
    rw [hcons, List.countP_append, ih, List.countP_cons, List.countP_map]
    by_cases hq : q = p
    · subst hq
      have hfun : ((fun r : PlannedRow × ScheduledRow => decide (r.1 = q)) ∘
          (fun s => (q, s))) = fun _ => true := by
        funext s
        simp
      rw [hfun, List.countP_true]
      simp only [List.countP_eq_length_filter, decide_True, if_true]
      ring
    · have hfun : ((fun r : PlannedRow × ScheduledRow => decide (r.1 = p)) ∘
          (fun s => (q, s))) = fun _ => false := by
        funext s
        simp [hq]
      rw [hfun, List.countP_false]
      simp [hq]

theorem plannedOrders_default_eq (orders : List RawOrder) :
    plannedOrders orders true [] =
      (orders.map plannedRowOf).filter (fun r => !(statusExcluded r.status)) := rfl

/-! ## Claims -/

/-- **C1.** In `scheduler_get_orders`, Stage A planned-order rows are
inner-joined to Stage B allocation rows on the order-item id (left key
`orderItemsId`, right key `orderItemId`): a planned row whose key matches
no allocation contributes no merged row; a planned row occurring once whose
single order-item id matches exactly two allocations contributes exactly
two merged rows (no loss, no dedup-to-one); and every merged row reaches
the final view one-for-one. -/
theorem C1_inner_join_on_order_item (ps : List PlannedRow) (ss : List ScheduledRow)
    (p : PlannedRow) :
    ((∀ s ∈ ss, p.orderItemsId ≠ some s.orderItemId) →
      ∀ r ∈ ordersMerged ps ss, r.1 ≠ p) ∧
    (ps.countP (fun q => decide (q = p)) = 1 →
      ss.countP (fun s => decide (p.orderItemsId = some s.orderItemId)) = 2 →
      (ordersMerged ps ss).countP (fun r => decide (r.1 = p)) = 2) ∧
    (∀ (env : OrdersEnv) (excl : Bool) (items : List String),
      (scheduler_get_orders env excl items).length =
        (ordersMerged (plannedOrders env.orders excl items)
          (scheduledOrders env.allocations env.equipments)).length) := by
  refine ⟨?_, ?_, ?_⟩
  · intro hno r hr heq
    have hmem := ordersMerged_mem.mp hr
    rw [heq] at hmem
    exact hno r.2 hmem.2.1 hmem.2.2
  · intro h1 h2
    rw [ordersMerged_countP, h1, h2]
  · intro env excl items
    simp [scheduler_get_orders, List.length_map]

/-- Witness for C1: one planned order whose single order-item id (10)
matches exactly two scheduled allocations yields exactly two merged rows. -/
theorem C1_inner_join_on_order_item_w :
    (ordersMerged [samplePlanned] [sampleSched1, sampleSched2]).countP
      (fun r => decide (r.1 = samplePlanned)) = 2 :=
  (C1_inner_join_on_order_item [samplePlanned] [sampleSched1, sampleSched2]
    samplePlanned).2.1 (by decide) (by decide)

/-- **C5.** For each of the five left-join steps of
`scheduler_get_bom_setup` (Operation→Route on `operationCode`; then
MaterialDefinition on `operationCode = externalId`; then Segment on
`(operationCode, routeCode)`; then SegmentEquipment and SegmentMaterial on
`(operationCode, routeCode, segmentCode)`): the output row count is at
least the left input row count, every left row appears at least once, and
a row whose key matches nothing on the right carries null right-side
fields. -/
theorem C5_left_join_chain (env : BomEnv) :
    (env.operations.length ≤ (bomStep1 env).length ∧
      (∀ l ∈ env.operations, ∃ p ∈ bomStep1 env, p.1 = l) ∧
      (∀ p ∈ bomStep1 env,
        (∀ r ∈ env.routes, routeMatch p.1 r = false) → p.2 = none)) ∧
    ((bomStep1 env).length ≤ (bomStep2 env).length ∧
      (∀ l ∈ bomStep1 env, ∃ p ∈ bomStep2 env, p.1 = l) ∧
      (∀ p ∈ bomStep2 env,
        (∀ r ∈ env.materials, materialMatch p.1 r = false) → p.2 = none)) ∧
    ((bomStep2 env).length ≤ (bomStep3 env).length ∧
      (∀ l ∈ bomStep2 env, ∃ p ∈ bomStep3 env, p.1 = l) ∧
      (∀ p ∈ bomStep3 env,
        (∀ r ∈ env.segments, segmentMatch p.1 r = false) → p.2 = none)) ∧
    ((bomStep3 env).length ≤ (bomStep4 env).length ∧
      (∀ l ∈ bomStep3 env, ∃ p ∈ bomStep4 env, p.1 = l) ∧
      (∀ p ∈ bomStep4 env,
        (∀ r ∈ env.segmentEquipments, segEquipMatch p.1 r = false) → p.2 = none)) ∧
    ((bomStep4 env).length ≤ (bomStep5 env).length ∧
      (∀ l ∈ bomStep4 env, ∃ p ∈ bomStep5 env, p.1 = l) ∧
      (∀ p ∈ bomStep5 env,
        (∀ r ∈ env.segmentMaterials, segMaterialMatch p.1 r = false) → p.2 = none)) :=
  ⟨⟨leftJoin_length_ge _ _ _, fun _ hl => leftJoin_mem_left _ _ hl,
    fun _ hp h => leftJoin_unmatched_null hp h⟩,
   ⟨leftJoin_length_ge _ _ _, fun _ hl => leftJoin_mem_left _ _ hl,
    fun _ hp h => leftJoin_unmatched_null hp h⟩,
   ⟨leftJoin_length_ge _ _ _, fun _ hl => leftJoin_mem_left _ _ hl,
    fun _ hp h => leftJoin_unmatched_null hp h⟩,
   ⟨leftJoin_length_ge _ _ _, fun _ hl => leftJoin_mem_left _ _ hl,
    fun _ hp h => leftJoin_unmatched_null hp h⟩,
   ⟨leftJoin_length_ge _ _ _, fun _ hl => leftJoin_mem_left _ _ hl,
    fun _ hp h => leftJoin_unmatched_null hp h⟩⟩

/-- Witness for C5 at a one-operation environment with empty right-hand
frames: the length bound, and the null right side of the unmatched
material join of step 2. -/
theorem C5_left_join_chain_w :
    sampleBomEnvBare.operations.length ≤ (bomStep1 sampleBomEnvBare).length ∧
    (((sampleOp, (none : Option RouteRow)), (none : Option MaterialRow)) :
      BomStep2Row).2 = none :=
  ⟨(C5_left_join_chain sampleBomEnvBare).1.1,
   (C5_left_join_chain sampleBomEnvBare).2.1.2.2 ((sampleOp, none), none)
     (by decide) (by decide)⟩

/-- **C6.** `_do_get_completed_orders` over `N` order numbers partitions
the input into batches of at most 80 whose concatenation is the input
(slice order preserved), issues exactly `⌈N/80⌉ = (N + 79) / 80` batch
requests (zero for an empty list), and returns a collection with no
duplicates, regardless of duplicates in the input or across batch
responses. -/
theorem C6_batched_completed_lookup (resp : List String → List String)
    (orderNumbers : List String) :
    do_get_completed_requestCount orderNumbers = (orderNumbers.length + 79) / 80 ∧
    (orderBatches orderNumbers).flatten = orderNumbers ∧
    (∀ b ∈ orderBatches orderNumbers, b.length ≤ 80) ∧
    (do_get_completed_orders resp orderNumbers).Nodup :=
  ⟨orderBatches_length orderNumbers, orderBatches_flatten orderNumbers,
   orderBatches_size_le orderNumbers, nodup_uniqueFirst _⟩

/-- Witness for C6 on a duplicated two-element input with duplicated
responses. -/
theorem C6_batched_completed_lookup_w :
    do_get_completed_requestCount ["a", "a"] = ((["a", "a"] : List String).length + 79) / 80 ∧
    (["a", "a"] : List String).length ≤ 80 ∧
    (do_get_completed_orders (fun _ => ["z", "z"]) ["a", "a"]).Nodup :=
  ⟨(C6_batched_completed_lookup (fun _ => ["z", "z"]) ["a", "a"]).1,
   (C6_batched_completed_lookup (fun _ => ["z", "z"]) ["a", "a"]).2.2.1
     ["a", "a"] (by decide),
   (C6_batched_completed_lookup (fun _ => ["z", "z"]) ["a", "a"]).2.2.2⟩

/-- **C9.** The priority mapping is total over all integer inputs:
1 ↦ "High", 2 ↦ "Medium", 3 ↦ "Low", and every other value ↦ "". -/
theorem C9_priority_total (x : Int) :
    priorityLabel 1 = "High" ∧ priorityLabel 2 = "Medium" ∧
    priorityLabel 3 = "Low" ∧
    (x ≠ 1 → x ≠ 2 → x ≠ 3 → priorityLabel x = "") := by
  refine ⟨rfl, rfl, rfl, ?_⟩
  intro h1 h2 h3
  simp only [priorityLabel, scheduler_priority_map, List.lookup]
  rw [beq_eq_false_iff_ne.mpr h1, beq_eq_false_iff_ne.mpr h2, beq_eq_false_iff_ne.mpr h3]
  rfl

/-- Witness for C9 at the out-of-range input 7. -/
theorem C9_priority_total_w :
    priorityLabel 1 = "High" ∧ priorityLabel 7 = "" :=
  ⟨(C9_priority_total 7).1,
   (C9_priority_total 7).2.2.2 (by decide) (by decide) (by decide)⟩

/-- **C2.** After the inner join of `scheduler_get_orders`: a surviving
row whose order number is in the execution system's completed set has
status COMPLETED in the final view; the overlay is one-directional — it
either sets status to COMPLETED or leaves the row unchanged; the column
drop and positional rename after the overlay keep every row's status value
(the `Status` field of the final row is exactly the overlaid `status`
cell), with the `status` column landing under the `Status` label in the
positional rename; and the final view is exactly
overlay-then-drop-and-rename of the merged rows, with no further
processing. -/
theorem C2_completed_overlay (doOrders : List String)
    (r : PlannedRow × ScheduledRow) :
    (doOrders.contains r.1.orderNumber = true →
      (finalizeRow (overlayRow doOrders r)).Status = some "COMPLETED") ∧
    (overlayRow doOrders r = ({ r.1 with status := some "COMPLETED" }, r.2) ∨
      overlayRow doOrders r = r) ∧
    ((finalizeRow (overlayRow doOrders r)).Status = (overlayRow doOrders r).1.status) ∧
    ((mergedColumns.filter (fun c => !(droppedColumns.contains c))).zip finalColumns =
      [("id", "Id"), ("orderNumber", "OrderNumber"),
       ("earliestStartDate", "EarliestStartDate"), ("dueDate", "DueDate"),
       ("notes", "Notes"), ("status", "Status"), ("orderItems", "OrderItems"),
       ("orderProperties", "OrderProperties"), ("priority", "Priority"),
       ("orderedQuantity", "OrderedQuantity"), ("orderUOM", "OrderUOM"),
       ("ProductCode", "ProductCode"), ("StartDateTime", "StartDateTime"),
       ("EndDateTime", "EndDateTime"), ("ScheduledQuantity", "ScheduledQuantity"),
       ("duration", "Duration_Minutes"),
       ("expectedDuration", "ExpectedDuration_Minutes"),
       ("durationLocked", "DurationLocked"),
       ("Changeover_duration", "ChangeoverDuration"),
       ("Equipment", "Equipment")]) ∧
    (∀ (env : OrdersEnv) (excl : Bool) (items : List String),
      scheduler_get_orders env excl items =
        ((ordersMerged (plannedOrders env.orders excl items)
          (scheduledOrders env.allocations env.equipments)).map
            (overlayRow (ordersCompletedSet env excl items))).map finalizeRow) := by
  refine ⟨?_, ?_, rfl, by decide, fun env excl items => rfl⟩
  · intro hin
    unfold overlayRow
    rw [if_pos hin]
    rfl
  · unfold overlayRow
    by_cases hin : doOrders.contains r.1.orderNumber = true
    · rw [if_pos hin]
      exact Or.inl rfl
    · rw [if_neg hin]
      exact Or.inr rfl

/-- Witness for C2: a row whose order number is in the completed set has
status COMPLETED in the final view. -/
theorem C2_completed_overlay_w :
    (finalizeRow (overlayRow ["A1"] (samplePlanned, sampleSched1))).Status =
      some "COMPLETED" :=
  (C2_completed_overlay ["A1"] (samplePlanned, sampleSched1)).1 (by decide)

/-- **C7.** Construction is terminal on scenario resolution: when
`_set_data_template` fails, or yields a pair that is not strictly positive
in both components, `__init__` raises and no `TilliT` object exists (so no
operation on the object can ever run); conversely, a successfully
constructed object carries strictly positive ids. -/
theorem C7_construction_terminal (resp : HttpResp ScenariosBody)
    (site tenant auth : String) (isStage : Bool) :
    (∀ d s, set_data_template resp = .ok (d, s) → ¬(0 < d ∧ 0 < s) →
      (tillitInit resp site tenant auth isStage).isOk = false) ∧
    ((set_data_template resp).isOk = false →
      (tillitInit resp site tenant auth isStage).isOk = false) ∧
    (∀ st, tillitInit resp site tenant auth isStage = .ok st →
      0 < st.scheduler_data_id ∧ 0 < st.scheduler_scenario_id) := by
  refine ⟨?_, ?_, ?_⟩
  · intro d s hok hneg
    simp only [tillitInit, hok]
    rw [if_neg hneg]
    rfl
  · intro hbad
    rcases hres : set_data_template resp with e | pair
    · simp only [tillitInit, hres]
      rfl
    · rw [hres] at hbad
      exact nomatch hbad
  · intro st hok
    rcases hres : set_data_template resp with e | ⟨d, s⟩
    · simp only [tillitInit, hres] at hok
      exact nomatch hok
    · simp only [tillitInit, hres] at hok
      by_cases hpos : 0 < d ∧ 0 < s
      · rw [if_pos hpos] at hok
        cases hok
        exact hpos
      · rw [if_neg hpos] at hok
        exact nomatch hok

/-- Witness for C7: a live scenario resolving to the non-positive pair
(5, 0) makes construction fail. -/
theorem C7_construction_terminal_w :
    (tillitInit sampleScenariosRespBad "SITE1" "tenant1" "auth" false).isOk = false :=
  (C7_construction_terminal sampleScenariosRespBad "SITE1" "tenant1" "auth" false).1
    5 0 (by rfl) (by decide)

/-- **C8.** Graph-query error handling is dual: a non-success (4xx/5xx)
HTTP status makes `fetch_scheduler_graphql` raise, and the error
propagates uncaught through `scheduler_get_orders`, aborting the whole
view build with no retry; a successful response whose
`getOrdersForScenario` field is null is returned by
`_scheduler_get_planned_order` to its caller as `None` rather than raised. -/
theorem C8_graph_error_duality :
    (∀ (r : HttpResp OrdersBody), 400 ≤ r.status → r.status < 600 →
      fetch_scheduler_graphql r = .error r.status) ∧
    (∀ (r : HttpResp OrdersBody) (excl : Bool) (items : List String),
      r.status < 400 → r.body.getOrdersForScenario = none →
      scheduler_get_planned_order_http r excl items = .ok none) ∧
    (∀ (env : OrdersHttpEnv) (excl : Bool) (items : List String),
      400 ≤ env.ordersResp.status → env.ordersResp.status < 600 →
      (scheduler_get_orders_http env excl items).isOk = false) := by
  refine ⟨?_, ?_, ?_⟩
  · intro r h1 h2
    unfold fetch_scheduler_graphql raise_for_status
    rw [if_pos ⟨h1, h2⟩]
    rfl
  · intro r excl items hlt hnull
    have hfetch : fetch_scheduler_graphql r = .ok r.body := by
      unfold fetch_scheduler_graphql raise_for_status
      rw [if_neg (by omega)]
      rfl
    have hstep : scheduler_get_planned_order_http r excl items =
        (match r.body.getOrdersForScenario with
         | none => Except.ok none
         | some orders => Except.ok (some (plannedOrders orders excl items))) := by
      unfold scheduler_get_planned_order_http
      rw [hfetch]
      rfl
    rw [hstep, hnull]
  · intro env excl items h1 h2
    have hfetch : fetch_scheduler_graphql env.ordersResp = .error env.ordersResp.status := by
      unfold fetch_scheduler_graphql raise_for_status
      rw [if_pos ⟨h1, h2⟩]
      rfl
    unfold scheduler_get_orders_http
    rw [hfetch]
    rfl

/-- Witness for C8: an HTTP-500 orders fetch raises and aborts the build;
a successful null-data response yields `None`. -/
theorem C8_graph_error_duality_w :
    fetch_scheduler_graphql sampleOrdersRespErr = .error 500 ∧
    scheduler_get_planned_order_http sampleOrdersRespNull true [] = .ok none ∧
    (scheduler_get_orders_http sampleOrdersHttpEnv true []).isOk = false :=
  ⟨C8_graph_error_duality.1 sampleOrdersRespErr (by decide) (by decide),
   C8_graph_error_duality.2.1 sampleOrdersRespNull true [] (by decide) rfl,
   C8_graph_error_duality.2.2 sampleOrdersHttpEnv true [] (by decide) (by decide)⟩

/-- **C10.** `scheduler_get_orders`' default call is
`excludeCompleted=True, excludeItems=[]`; under it every surviving Stage A
row has a planning-side status outside
{COMPLETED, SUSPENDED, CANCELLED, READY, 'Complete'} at filter time, and a
final row whose Status is COMPLETED can only have received it from the
execution-system overlay: its order number is in the completed set. -/
theorem C10_default_completed_only_from_overlay (env : OrdersEnv) :
    scheduler_get_orders_default env = scheduler_get_orders env true [] ∧
    (∀ p ∈ plannedOrders env.orders true [], statusExcluded p.status = false) ∧
    (∀ fr ∈ scheduler_get_orders_default env,
      fr.Status = some "COMPLETED" →
        fr.OrderNumber ∈ ordersCompletedSet env true []) := by
  refine ⟨rfl, ?_, ?_⟩
  · intro p hp
    rw [plannedOrders_default_eq] at hp
    have h := (List.mem_filter.mp hp).2
    simpa using h
  · intro fr hfr hstat
    have hrepr : fr ∈ ((ordersMerged (plannedOrders env.orders true [])
        (scheduledOrders env.allocations env.equipments)).map
          (overlayRow (ordersCompletedSet env true []))).map finalizeRow := hfr
    rw [List.mem_map] at hrepr
    obtain ⟨r', hr', hfin⟩ := hrepr
    rw [List.mem_map] at hr'
    obtain ⟨r, hr, hov⟩ := hr'
    subst hfin
    subst hov
    by_cases hin : (ordersCompletedSet env true []).contains r.1.orderNumber = true
    · have hnum : (finalizeRow (overlayRow (ordersCompletedSet env true []) r)).OrderNumber
          = r.1.orderNumber := by
        unfold overlayRow
        rw [if_pos hin]
        rfl
      rw [hnum]
      simpa using hin
    · have hov2 : overlayRow (ordersCompletedSet env true []) r = r := by
        unfold overlayRow
        rw [if_neg hin]
      rw [hov2] at hstat
      have hsv : r.1.status = some "COMPLETED" := hstat
      have hp1 := (ordersMerged_mem.mp hr).1
      rw [plannedOrders_default_eq] at hp1
      have hfil := (List.mem_filter.mp hp1).2
      rw [hsv] at hfil
      exact absurd hfil (by decide)

/-- Witness for C10, end to end: in `sampleOrdersEnv` the order is
`IN_PROGRESS` on the scheduling side but COMPLETED in the execution
system, and the single final row's order number lies in the completed set. -/
theorem C10_default_completed_only_from_overlay_w :
    (finalizeRow (overlayRow (ordersCompletedSet sampleOrdersEnv true [])
        (plannedRowOf sampleRawOrder,
         scheduledRowOf (equipmentSorted sampleOrdersEnv.equipments)
           sampleAlloc))).OrderNumber
      ∈ ordersCompletedSet sampleOrdersEnv true [] :=
  (C10_default_completed_only_from_overlay sampleOrdersEnv).2.2 _
    (List.Mem.head _) rfl

/-- **C3 (counterexample).** The claim "every unparsable or missing value
is coerced to 0" fails on the code: a merged row whose `rate` cell holds
the non-numeric string `"x"` ends with `Rate` missing (`NaN`, here
`none`), not 0, in the final BOM view. -/
theorem C3_cex_unparsable_not_zero :
    (scheduler_get_bom_setup sampleBomEnvRateX).map (fun r => r.Rate) = [none] ∧
    (none : Option ℚ) ≠ some 0 := by
  exact ⟨rfl, by decide⟩

/-- **C3 (amended).** In `scheduler_get_bom_setup`, for every row of the
merged table the `fixedDuration` and `rate` cells are coerced numerically:
missing values and the literal strings "NaN", "null", "" are coerced to 0,
numeric values are kept, and any other string is parsed with unparsable
strings coerced to missing (`NaN`, not 0); and `rateHour = rate * 3600`
(missing propagating). -/
theorem C3_numeric_coercion (m : BomStep5Row) :
    ((bomFinalize m).FixedDuration = coerceNumericZero (bomFixedDurationCell m)) ∧
    ((bomFinalize m).Rate = coerceNumericZero (bomRateCell m)) ∧
    ((bomFinalize m).RatePerHour = ((bomFinalize m).Rate).map (fun q => q * 3600)) ∧
    (∀ v : PVal, (v = .na ∨ v = .str "NaN" ∨ v = .str "null" ∨ v = .str "") →
      coerceNumericZero v = some 0) ∧
    (∀ q : ℚ, coerceNumericZero (.num q) = some q) ∧
    (∀ s : String, s ≠ "NaN" → s ≠ "null" → s ≠ "" →
      coerceNumericZero (.str s) = parseNumeric s) := by
  refine ⟨rfl, rfl, ?_, ?_, fun q => rfl, ?_⟩
  · show (coerceNumericZero (bomRateCell m)).map (fun q => q * 60 * 60) =
      (coerceNumericZero (bomRateCell m)).map (fun q => q * 3600)
    cases coerceNumericZero (bomRateCell m) with
    | none => rfl
    | some q =>
      show some (q * 60 * 60) = some (q * 3600)
      rw [mul_assoc]
      norm_num
  · rintro v (rfl | rfl | rfl | rfl) <;> rfl
  · intro s h1 h2 h3
    show toNumeric (if s = "NaN" ∨ s = "null" ∨ s = "" then PVal.num 0 else PVal.str s) =
      parseNumeric s
    rw [if_neg (by simp [h1, h2, h3])]
    rfl

/-- Witness for C3: the na, literal-"NaN", numeric and plain-string cases
at concrete cells. -/
theorem C3_numeric_coercion_w :
    coerceNumericZero PVal.na = some 0 ∧
    coerceNumericZero (.str "NaN") = some 0 ∧
    coerceNumericZero (.num 7) = some 7 ∧
    coerceNumericZero (.str "abc") = parseNumeric "abc" :=
  ⟨(C3_numeric_coercion (((((sampleOp, none), none), none), none), none)).2.2.2.1
      PVal.na (Or.inl rfl),
   (C3_numeric_coercion (((((sampleOp, none), none), none), none), none)).2.2.2.1
      (.str "NaN") (Or.inr (Or.inl rfl)),
   (C3_numeric_coercion (((((sampleOp, none), none), none), none), none)).2.2.2.2.1 7,
   (C3_numeric_coercion (((((sampleOp, none), none), none), none), none)).2.2.2.2.2
      "abc" (by decide) (by decide) (by decide)⟩

/-- **C4 (counterexample).** The final BOM view does not select 13
columns: the `selected_columns` list of lines 412–415 has 17 entries. -/
theorem C4_cex_thirteen_columns :
    bomSelectedColumns.length = 17 ∧ ¬(bomSelectedColumns.length = 13) := by
  decide

/-- **C4 (amended).** The final BOM setup view consists of a fixed set of
17 selected columns renamed to human-readable labels (e.g.
`operationCode` ↦ "Operation Code"), and its rows are sorted ascending by
the key (Operation Code, Segment, Route, Material Code), in exactly that
key order (missing keys last): the output is a permutation of the
projected rows that is pairwise ordered under the key comparison. -/
theorem C4_bom_projection_and_sort (env : BomEnv) :
    bomSelectedColumns.length = 17 ∧
    bomRenameMap.length = 17 ∧
    bomSelectedColumns.map (fun c => (bomRenameMap.lookup c).getD c) =
      ["Quantity", "Operation Code", "Operation External ID",
       "Operation Description", "Operation Material Group", "Segment",
       "Route", "Equipment Class ID", "Equipment Class", "Material Code",
       "Material Description", "Material Quantity",
       "Material Unit of Measure", "Material Use", "Fixed Duration",
       "Rate", "Rate per Hour"] ∧
    bomSortKeys = ["Operation Code", "Segment", "Route", "Material Code"] ∧
    (scheduler_get_bom_setup env).Perm ((bomStep5 env).map bomFinalize) ∧
    List.Sorted bomRowLe (scheduler_get_bom_setup env) := by
  refine ⟨by decide, by decide, by decide, rfl, ?_, ?_⟩
  · exact List.perm_insertionSort bomRowLe _
  · exact List.sorted_insertionSort bomRowLe _

end TilliT

